import Mathlib

/-!
Verification of the ExoStack coordination core (agent readiness evaluator,
power probe, idle detector, agent main loop, and hub distributed scheduler)
against its natural-language specification.  The definitions below are a
shallow embedding of the Python sources in `exo_agent/health_monitor.py`,
`exo_agent/agent.py` and `exo_hub/services/distributed_scheduler.py`:
probe readings (idle flag, idle duration, battery state, CPU and memory
percentages) become explicit arguments, floats become rationals, and the
stateful idle detector and heartbeat loop become explicit state-passing
step functions.
-/

namespace ExoStack

/-! ## Power probe (`LaptopPowerManager`) -/

/-- Compute caps derived from the power state
(`LaptopPowerManager.get_compute_limits`). -/
structure ComputeLimits where
  max_cpu_usage : Int
  max_memory_usage : Int
  max_concurrent_tasks : Int
deriving DecidableEq, Repr

/-- Embedding of `LaptopPowerManager.should_throttle_compute`: throttle
when on battery with battery level below 20. -/
def should_throttle_compute (on_battery : Bool) (battery_level : ℚ) : Bool :=
  on_battery && decide (battery_level < 20)

/-- Embedding of `LaptopPowerManager.get_compute_limits`. -/
def get_compute_limits (on_battery : Bool) (battery_level : ℚ) : ComputeLimits :=
  if on_battery then
    if battery_level < 20 then ⟨30, 50, 1⟩
    else if battery_level < 50 then ⟨50, 70, 2⟩
    else ⟨70, 80, 3⟩
  else ⟨90, 90, 5⟩

/-! ## Readiness evaluator (`HealthMonitor.get_ai_compute_readiness`) -/

/-- Idle-state contribution to the readiness score (the first `+=` block of
`get_ai_compute_readiness`). -/
def idle_points (is_idle : Bool) (idle_duration : ℚ) : Int :=
  if is_idle then
    if 1800 < idle_duration then 40
    else if 600 < idle_duration then 30
    else 20
  else 5

/-- Power-state contribution to the readiness score (the second `+=` block
of `get_ai_compute_readiness`). -/
def power_points (on_battery : Bool) (battery_level : ℚ) : Int :=
  if on_battery = false then 30
  else if 80 < battery_level then 25
  else if 50 < battery_level then 15
  else if 20 < battery_level then 5
  else 0

/-- System-resources contribution to the readiness score (the third `+=`
block of `get_ai_compute_readiness`). -/
def resource_points (cpu_usage memory_usage : ℚ) : Int :=
  if cpu_usage < 20 ∧ memory_usage < 50 then 30
  else if cpu_usage < 50 ∧ memory_usage < 70 then 20
  else if cpu_usage < 80 ∧ memory_usage < 85 then 10
  else 0

/-- The readiness score accumulated by `get_ai_compute_readiness`
(it starts from 0 and adds the three contribution blocks in sequence). -/
def readiness_score (is_idle : Bool) (idle_duration : ℚ) (on_battery : Bool)
    (battery_level : ℚ) (cpu_usage memory_usage : ℚ) : Int :=
  idle_points is_idle idle_duration
    + power_points on_battery battery_level
    + resource_points cpu_usage memory_usage

/-- Embedding of `HealthMonitor._get_compute_recommendations`, which
appends advice strings in a fixed order. -/
def get_compute_recommendations (score : Int) (is_idle : Bool)
    (idle_duration : ℚ) (on_battery : Bool) (battery_level : ℚ)
    (cpu_usage memory_usage : ℚ) : List String :=
  let r0 : List String := []
  let r1 :=
    if score < 30 then r0 ++ ["System is busy - not ideal for AI compute"]
    else if score < 60 then
      r0 ++ ["System has limited availability - light AI tasks only"]
    else r0
  let r2 :=
    if is_idle = false then
      r1 ++ ["Wait for system to be idle for better performance"]
    else if idle_duration < 600 then
      r1 ++ ["System recently active - monitor for stability"]
    else r1
  let r3 :=
    if on_battery then
      if battery_level < 20 then
        r2 ++ ["Critical battery level - avoid AI compute"]
      else if battery_level < 50 then
        r2 ++ ["Consider connecting to power for intensive tasks"]
      else r2
    else r2
  let r4 :=
    if 80 < cpu_usage then
      r3 ++ ["High CPU usage - may impact AI task performance"]
    else r3
  let r5 :=
    if 85 < memory_usage then
      r4 ++ ["High memory usage - may limit model size"]
    else r4
  if r5 = [] ∧ 60 ≤ score then r5 ++ ["System ready for AI compute tasks"]
  else r5

/-- The readiness snapshot returned by
`HealthMonitor.get_ai_compute_readiness` (the fields of the returned
dictionary that the coordination core consumes). -/
structure ReadinessSnapshot where
  ready_for_ai : Bool
  readiness_score : Int
  is_idle : Bool
  idle_duration : ℚ
  on_battery : Bool
  battery_level : ℚ
  compute_limits : ComputeLimits
  cpu_usage : ℚ
  memory_usage : ℚ
  gpu_available : Bool
  recommendations : List String
deriving DecidableEq, Repr

/-- Embedding of `HealthMonitor.get_ai_compute_readiness`, with the probe
readings (idle state, battery state, resource sample, GPU availability)
as explicit inputs. -/
def get_ai_compute_readiness (is_idle : Bool) (idle_duration : ℚ)
    (on_battery : Bool) (battery_level : ℚ) (cpu_usage memory_usage : ℚ)
    (gpu_available : Bool) : ReadinessSnapshot :=
  let score :=
    readiness_score is_idle idle_duration on_battery battery_level
      cpu_usage memory_usage
  { ready_for_ai :=
      decide (60 ≤ score) && !should_throttle_compute on_battery battery_level
    readiness_score := score
    is_idle := is_idle
    idle_duration := idle_duration
    on_battery := on_battery
    battery_level := battery_level
    compute_limits := get_compute_limits on_battery battery_level
    cpu_usage := cpu_usage
    memory_usage := memory_usage
    gpu_available := gpu_available
    recommendations :=
      get_compute_recommendations score is_idle idle_duration on_battery
        battery_level cpu_usage memory_usage }

/-- Row function written from the spec's score table, Idle dimension
(best-matching row wins). -/
def idle_row_spec (is_idle : Bool) (idle_duration : ℚ) : Int :=
  if is_idle = true ∧ 1800 < idle_duration then 40
  else if is_idle = true ∧ 600 < idle_duration then 30
  else if is_idle = true then 20
  else 5

/-- Row function written from the spec's score table, Power dimension. -/
def power_row_spec (on_battery : Bool) (battery_level : ℚ) : Int :=
  if on_battery = false then 30
  else if 80 < battery_level then 25
  else if 50 < battery_level then 15
  else if 20 < battery_level then 5
  else 0

/-- Row function written from the spec's score table, Resources
dimension. -/
def resource_row_spec (cpu_usage memory_usage : ℚ) : Int :=
  if cpu_usage < 20 ∧ memory_usage < 50 then 30
  else if cpu_usage < 50 ∧ memory_usage < 70 then 20
  else if cpu_usage < 80 ∧ memory_usage < 85 then 10
  else 0

/-! ## Idle detector (`HealthMonitor.detect_idle_state`) -/

/-- The mutable idle-session fields of `HealthMonitor` that
`detect_idle_state` reads and writes across calls.  Timestamps are in
seconds. -/
structure MonitorState where
  last_user_activity : ℤ
  idle_start_time : Option ℤ
  currently_idle : Bool
deriving DecidableEq, Repr

/-- The `IdleState` dataclass returned by `detect_idle_state` (the fields
the readiness evaluator consumes). -/
structure IdleStateResult where
  is_idle : Bool
  idle_duration : ℤ
  user_active : Bool
  last_activity : ℤ
deriving DecidableEq, Repr

/-- Embedding of `HealthMonitor.detect_idle_state` as a step function:
the current wall-clock time, the user-activity probe result and the
CPU/memory sample are inputs; the updated monitor state and the returned
`IdleState` are outputs.  The CPU idle threshold is 10 and the idle
duration threshold is 300 seconds, as in `HealthMonitor.__init__`. -/
def detect_idle_state (st : MonitorState) (now : ℤ) (user_active : Bool)
    (cpu_usage memory_usage : ℚ) : MonitorState × IdleStateResult :=
  let low_load : Prop := cpu_usage < 10 ∧ memory_usage < 70
  let st1 :=
    if user_active then
      { st with last_user_activity := now, idle_start_time := none,
                currently_idle := false }
    else if low_load ∧ st.currently_idle = false then
      match st.idle_start_time with
      | none => { st with idle_start_time := some now }
      | some t0 =>
          if 300 < now - t0 then { st with currently_idle := true } else st
    else if ¬low_load then
      { st with idle_start_time := none, currently_idle := false }
    else st
  let idle_duration :=
    match st1.idle_start_time with
    | some t0 => now - t0
    | none => 0
  (st1,
    { is_idle := st1.currently_idle
      idle_duration := idle_duration
      user_active := user_active
      last_activity := st1.last_user_activity })

/-- Folding `detect_idle_state` over a run of samples
`(now, user_active, cpu, mem)`, keeping the monitor state. -/
def run_detect_idle (st : MonitorState) : List (ℤ × Bool × ℚ × ℚ) → MonitorState
  | [] => st
  | (now, ua, cpu, mem) :: rest =>
      run_detect_idle (detect_idle_state st now ua cpu mem).1 rest

/-! ## Agent main loop (`main_loop` in `exo_agent/agent.py`) -/

/-- One heartbeat tick of the agent main loop's failure accounting:
given the consecutive-failure counter, whether the heartbeat succeeded
and whether a re-registration attempt (if made) would succeed, return
the new counter and whether a re-registration was attempted.  The code
calls `register_agent` and ignores its return value, so `reg_ok` is
never consulted. -/
def main_loop_step (c : Nat) (hb_ok : Bool) (reg_ok : Bool) : Nat × Bool :=
  if hb_ok then (0, false)
  else if 5 ≤ c + 1 then (0, true)
  else (c + 1, false)

/-- Every sample in the list is a failed heartbeat, for the first `k`
samples. -/
def starts_with_failures : Nat → List Bool → Prop
  | 0, _ => True
  | _ + 1, [] => False
  | k + 1, b :: l => b = false ∧ starts_with_failures k l

/-- Somewhere in the list there are `k` consecutive failed heartbeats. -/
def has_failure_run (k : Nat) : List Bool → Prop
  | [] => starts_with_failures k []
  | b :: l => starts_with_failures k (b :: l) ∨ has_failure_run k l

/-- Running the main loop's failure accounting over a list of heartbeat
outcomes, starting from counter `c`; returns the final counter and the
number of re-registration attempts made. -/
def run_main_loop : Nat → List Bool → Nat × Nat
  | c, [] => (c, 0)
  | c, hb :: rest =>
      let s := main_loop_step c hb true
      let r := run_main_loop s.1 rest
      (r.1, (if s.2 then 1 else 0) + r.2)

/-! ## Agent execute endpoint (`execute_task` in `exo_agent/agent.py`) -/

/-- Outcome of the inference collaborator (`inference_engine.process_task`):
either a result or a raised exception message. -/
inductive EngineOutcome where
  | success (result : String)
  | failure (err : String)
deriving DecidableEq, Repr

/-- The response dictionary of the agent's `/tasks/execute` endpoint; a
field is `none` when the corresponding key is absent from the returned
dictionary. -/
structure ExecuteResponse where
  status : String
  error : Option String
  readiness_score : Option Int
  recommendations : Option (List String)
  result : Option String
  duration : Option ℚ
  compute_limits_used : Option ComputeLimits
deriving DecidableEq, Repr

/-- Embedding of the agent's `execute_task` endpoint: it re-evaluates
readiness from the probe inputs, rejects when not ready, and otherwise
runs the engine.  The second component records whether the inference
engine was invoked. -/
def execute_task (is_idle : Bool) (idle_duration : ℚ) (on_battery : Bool)
    (battery_level : ℚ) (cpu_usage memory_usage : ℚ) (gpu_available : Bool)
    (engine : EngineOutcome) (duration : ℚ) : ExecuteResponse × Bool :=
  let readiness :=
    get_ai_compute_readiness is_idle idle_duration on_battery battery_level
      cpu_usage memory_usage gpu_available
  if readiness.ready_for_ai = false then
    ({ status := "rejected"
       error := some "System not ready for AI compute"
       readiness_score := some readiness.readiness_score
       recommendations := some readiness.recommendations
       result := none
       duration := none
       compute_limits_used := none }, false)
  else
    match engine with
    | .success res =>
        ({ status := "completed"
           error := none
           readiness_score := none
           recommendations := none
           result := some res
           duration := some duration
           compute_limits_used := some readiness.compute_limits }, true)
    | .failure e =>
        ({ status := "failed"
           error := some e
           readiness_score := none
           recommendations := none
           result := none
           duration := some duration
           compute_limits_used := none }, true)

/-! ## Scheduler node selection
(`DistributedScheduler._select_optimal_ai_node`) -/

/-- A candidate node as seen by the scheduler after
`_get_ai_ready_nodes` annotated it with its readiness snapshot. -/
structure SchedNode where
  id : String
  readiness_score : Int
  gpu_available : Bool
  max_concurrent_tasks : Nat
  current_load : Nat
deriving DecidableEq, Repr

/-- Comparison used by the scheduler's sort: node `a` may precede node
`b` when its readiness score is at least `b`'s (descending order).
Python's `sorted(..., reverse=True)` is stable, which insertion sort
with this inclusive comparison reproduces. -/
def score_ge (a b : SchedNode) : Prop :=
  b.readiness_score ≤ a.readiness_score

instance : DecidableRel score_ge := fun a b =>
  inferInstanceAs (Decidable (b.readiness_score ≤ a.readiness_score))

instance : IsTotal SchedNode score_ge :=
  ⟨fun a b => le_total b.readiness_score a.readiness_score⟩

instance : IsTrans SchedNode score_ge :=
  ⟨fun _ _ _ h1 h2 => le_trans h2 h1⟩

/-- Embedding of `str.lower()` applied to the task type (character-wise
lowercasing; the task types of interest are ASCII). -/
def py_lower (s : String) : String :=
  ⟨s.data.map Char.toLower⟩

/-- Embedding of `DistributedScheduler._node_meets_requirements`. -/
def node_meets_requirements (node : SchedNode) (task_type : String) : Bool :=
  if node.readiness_score < 60 then false
  else if task_type ∈ ["gpu_inference", "training"] ∧ node.gpu_available = false
    then false
  else if node.max_concurrent_tasks ≤ node.current_load then false
  else true

/-- Embedding of `DistributedScheduler._select_optimal_ai_node`: sort the
candidates by readiness score descending (stable), return the first one
meeting the task requirements, falling back to the head of the sorted
list, or `none` when there is no candidate. -/
def select_optimal_ai_node (task_type : String) (nodes : List SchedNode) :
    Option SchedNode :=
  let sorted_nodes := List.insertionSort score_ge nodes
  match sorted_nodes.find?
      (fun n => node_meets_requirements n (py_lower task_type)) with
  | some n => some n
  | none => sorted_nodes.head?

/-- Earliest element of the list attaining the maximal readiness score
(ties are won by the element that appears first). -/
def first_argmax_score : List SchedNode → Option SchedNode
  | [] => none
  | x :: xs =>
      match first_argmax_score xs with
      | none => some x
      | some b => if x.readiness_score < b.readiness_score then some b else some x

/-- Selection written from the amended claim's words: among the
candidates meeting the requirements, the earliest one with maximal
readiness score; if none meets them, the earliest candidate with maximal
score overall; `none` on an empty candidate set. -/
def select_optimal_spec (task_type : String) (nodes : List SchedNode) :
    Option SchedNode :=
  match first_argmax_score
      (nodes.filter (fun n => node_meets_requirements n (py_lower task_type))) with
  | some n => some n
  | none => first_argmax_score nodes

/-- Ordering claimed by the original claim C2: readiness score
descending, ties broken by ascending current load, then by id. -/
def claimed_node_le (a b : SchedNode) : Prop :=
  b.readiness_score < a.readiness_score
    ∨ (a.readiness_score = b.readiness_score
        ∧ (a.current_load < b.current_load
            ∨ (a.current_load = b.current_load ∧ a.id ≤ b.id)))

instance : DecidableRel claimed_node_le := fun a b =>
  inferInstanceAs (Decidable (_ ∨ _))

/-- Selection as described by the original claim C2: sort by the claimed
order (score descending, ties by ascending load then id), then apply the
same requirements filter and fallback. -/
def select_optimal_claimed (task_type : String) (nodes : List SchedNode) :
    Option SchedNode :=
  let sorted_nodes := List.insertionSort claimed_node_le nodes
  match sorted_nodes.find?
      (fun n => node_meets_requirements n (py_lower task_type)) with
  | some n => some n
  | none => sorted_nodes.head?

/-! ## Scheduler dispatch and rejection handling
(`DistributedScheduler._assign_task_to_node` and `_send_task_to_node`) -/

/-- Task status values relevant to the dispatch path. -/
inductive TaskSt where
  | pending
  | running
  | completed
  | failed
deriving DecidableEq, Repr

/-- Outcome of POSTing the task to the node's execute endpoint. -/
inductive SendOutcome where
  | accepted
  | rejected
  | httpError
  | transportError
deriving DecidableEq, Repr

/-- The hub-side state touched (or, per the claim, supposedly touched)
by one dispatch attempt: the task's status, the chosen node's
`current_load` as the hub tracks it, and whether the readiness cache
holds an entry for the chosen node. -/
structure HubDispatchState where
  task_status : TaskSt
  current_load : Nat
  cache_has_node : Bool
deriving DecidableEq, Repr

/-- Modelled from the spec: `registry.update_task_status` (the registry
module is not part of the sources at hand; spec section 4.7 lists it as a
task-status update operation, with `current_load` changes specified as
separate scheduler steps).  It records the new task status and touches
nothing else. -/
def update_task_status (s : HubDispatchState) (st : TaskSt) : HubDispatchState :=
  { s with task_status := st }

/-- Embedding of `DistributedScheduler._send_task_to_node`'s result
interpretation: only an HTTP 200 whose body is not `rejected` counts as
a success. -/
def send_task_to_node : SendOutcome → Bool
  | .accepted => true
  | .rejected => false
  | .httpError => false
  | .transportError => false

/-- Embedding of `DistributedScheduler._assign_task_to_node`: mark the
task running, send it, and on failure revert the task to pending.  The
code mutates no other hub state on this path. -/
def assign_task_to_node (s : HubDispatchState) (outcome : SendOutcome) :
    HubDispatchState × Bool :=
  let s1 := update_task_status s .running
  if send_task_to_node outcome then (s1, true)
  else (update_task_status s1 .pending, false)

/-! ## Task-queue drain ordering
(`DistributedScheduler._process_task_queue`) -/

/-- A pending task as sorted by the queue driver. -/
structure TaskRec where
  id : String
  priority : Int
  created_at : String
deriving DecidableEq, Repr

/-- Key order actually used by `_process_task_queue`: Python's
`list.sort(key=lambda t: (t.get('priority', 0), t.get('created_at', '')))`,
i.e. ascending lexicographic on `(priority, created_at)`. -/
def task_key_le (a b : TaskRec) : Prop :=
  a.priority < b.priority
    ∨ (a.priority = b.priority ∧ a.created_at ≤ b.created_at)

instance : DecidableRel task_key_le := fun a b =>
  inferInstanceAs (Decidable (_ ∨ _))

instance : IsTotal TaskRec task_key_le :=
  ⟨fun a b => by
    rcases lt_trichotomy a.priority b.priority with h | h | h
    · exact Or.inl (Or.inl h)
    · rcases le_total a.created_at b.created_at with hc | hc
      · exact Or.inl (Or.inr ⟨h, hc⟩)
      · exact Or.inr (Or.inr ⟨h.symm, hc⟩)
    · exact Or.inr (Or.inl h)⟩

instance : IsTrans TaskRec task_key_le :=
  ⟨fun a b c hab hbc => by
    rcases hab with h | ⟨h1, h2⟩ <;> rcases hbc with h' | ⟨h1', h2'⟩
    · exact Or.inl (h.trans h')
    · exact Or.inl (lt_of_lt_of_le h (le_of_eq h1'))
    · exact Or.inl (lt_of_le_of_lt (le_of_eq h1) h')
    · exact Or.inr ⟨h1.trans h1', h2.trans h2'⟩⟩

/-- The order in which the drain tick visits pending tasks (embedding of
the sort in `_process_task_queue`; Python's sort is stable, as is
insertion sort with this inclusive comparison). -/
def process_task_queue_order (l : List TaskRec) : List TaskRec :=
  List.insertionSort task_key_le l

/-- Key order stated by claim C8: priority descending, ties broken by
`created_at` ascending. -/
def claimed_task_le (a b : TaskRec) : Prop :=
  b.priority < a.priority
    ∨ (a.priority = b.priority ∧ a.created_at ≤ b.created_at)

instance : DecidableRel claimed_task_le := fun a b =>
  inferInstanceAs (Decidable (_ ∨ _))

/-- The drain order as claim C8 describes it. -/
def claimed_task_queue_order (l : List TaskRec) : List TaskRec :=
  List.insertionSort claimed_task_le l

/-! ## Helper lemmas about the readiness score components -/

theorem get_ai_compute_readiness_score (is_idle : Bool) (idle_duration : ℚ)
    (on_battery : Bool) (battery_level cpu_usage memory_usage : ℚ)
    (gpu_available : Bool) :
    (get_ai_compute_readiness is_idle idle_duration on_battery battery_level
        cpu_usage memory_usage gpu_available).readiness_score =
      readiness_score is_idle idle_duration on_battery battery_level
        cpu_usage memory_usage := rfl

theorem idle_points_bounds (is_idle : Bool) (d : ℚ) :
    5 ≤ idle_points is_idle d ∧ idle_points is_idle d ≤ 40 := by
  unfold idle_points
  split_ifs <;> norm_num

theorem power_points_bounds (on_battery : Bool) (lvl : ℚ) :
    0 ≤ power_points on_battery lvl ∧ power_points on_battery lvl ≤ 30 := by
  unfold power_points
  split_ifs <;> norm_num

theorem resource_points_bounds (cpu mem : ℚ) :
    0 ≤ resource_points cpu mem ∧ resource_points cpu mem ≤ 30 := by
  unfold resource_points
  split_ifs <;> norm_num

theorem idle_points_mono (is_idle : Bool) (d d' : ℚ) (h : d ≤ d') :
    idle_points is_idle d ≤ idle_points is_idle d' := by
  unfold idle_points
  split_ifs <;> linarith

theorem power_points_mono (lvl lvl' : ℚ) (h : lvl ≤ lvl') :
    power_points true lvl ≤ power_points true lvl' := by
  unfold power_points
  simp only [Bool.true_eq_false, if_false]
  split_ifs <;> linarith

theorem resource_points_mono (c c' m m' : ℚ) (hc : c' ≤ c) (hm : m' ≤ m) :
    resource_points c m ≤ resource_points c' m' := by
  unfold resource_points
  by_cases h1 : c < 20 ∧ m < 50
  · have h1' : c' < 20 ∧ m' < 50 :=
      ⟨lt_of_le_of_lt hc h1.1, lt_of_le_of_lt hm h1.2⟩
    rw [if_pos h1, if_pos h1']
  · by_cases h2 : c < 50 ∧ m < 70
    · have h2' : c' < 50 ∧ m' < 70 :=
        ⟨lt_of_le_of_lt hc h2.1, lt_of_le_of_lt hm h2.2⟩
      rw [if_neg h1, if_pos h2]
      by_cases h1' : c' < 20 ∧ m' < 50
      · rw [if_pos h1']; norm_num
      · rw [if_neg h1', if_pos h2']
    · by_cases h3 : c < 80 ∧ m < 85
      · have h3' : c' < 80 ∧ m' < 85 :=
          ⟨lt_of_le_of_lt hc h3.1, lt_of_le_of_lt hm h3.2⟩
        rw [if_neg h1, if_neg h2, if_pos h3]
        by_cases h1' : c' < 20 ∧ m' < 50
        · rw [if_pos h1']; norm_num
        · rw [if_neg h1']
          by_cases h2' : c' < 50 ∧ m' < 70
          · rw [if_pos h2']; norm_num
          · rw [if_neg h2', if_pos h3']
      · rw [if_neg h1, if_neg h2, if_neg h3]
        have := resource_points_bounds c' m'
        unfold resource_points at this
        exact this.1

/-! ## Claim theorems: readiness evaluator -/

/-- C1: For every evaluation performed by the readiness evaluator
`get_ai_compute_readiness`, the returned `ready_for_ai` flag is true if
and only if the computed readiness score is at least 60 and it is not
the case that the machine is on battery with battery level below 20
percent. -/
theorem C1_ready_for_ai_iff (is_idle : Bool) (idle_duration : ℚ)
    (on_battery : Bool) (battery_level cpu_usage memory_usage : ℚ)
    (gpu_available : Bool) :
    (get_ai_compute_readiness is_idle idle_duration on_battery battery_level
        cpu_usage memory_usage gpu_available).ready_for_ai = true ↔
      (60 ≤ (get_ai_compute_readiness is_idle idle_duration on_battery
          battery_level cpu_usage memory_usage
          gpu_available).readiness_score ∧
        ¬(on_battery = true ∧ battery_level < 20)) := by
  simp [get_ai_compute_readiness, should_throttle_compute, not_and,
    Decidable.imp_iff_not_or]
  try tauto

/-- C3: The readiness score lies in the interval `[0, 100]` and is the
sum of exactly one Idle row, at most one Power row and at most one
Resources row of the spec's score table, each the best-matching row of
its dimension. -/
theorem C3_score_decomposition (is_idle : Bool) (idle_duration : ℚ)
    (on_battery : Bool) (battery_level cpu_usage memory_usage : ℚ)
    (gpu_available : Bool) :
    (get_ai_compute_readiness is_idle idle_duration on_battery battery_level
        cpu_usage memory_usage gpu_available).readiness_score =
      idle_row_spec is_idle idle_duration
        + power_row_spec on_battery battery_level
        + resource_row_spec cpu_usage memory_usage ∧
    0 ≤ (get_ai_compute_readiness is_idle idle_duration on_battery
        battery_level cpu_usage memory_usage
        gpu_available).readiness_score ∧
    (get_ai_compute_readiness is_idle idle_duration on_battery battery_level
        cpu_usage memory_usage gpu_available).readiness_score ≤ 100 := by
  rw [get_ai_compute_readiness_score]
  have hidle : idle_points is_idle idle_duration =
      idle_row_spec is_idle idle_duration := by
    cases is_idle <;> simp [idle_points, idle_row_spec]
  have hpow : power_points on_battery battery_level =
      power_row_spec on_battery battery_level := rfl
  have hres : resource_points cpu_usage memory_usage =
      resource_row_spec cpu_usage memory_usage := rfl
  have hib := idle_points_bounds is_idle idle_duration
  have hpb := power_points_bounds on_battery battery_level
  have hrb := resource_points_bounds cpu_usage memory_usage
  unfold readiness_score
  refine ⟨by rw [hidle, hpow, hres], by linarith [hib.1, hpb.1, hrb.1],
    by linarith [hib.2, hpb.2, hrb.2]⟩

/-- C4: The power probe's compute limits are `{90, 90, 5}` when not on
battery, `{70, 80, 3}` on battery at level at least 50, `{50, 70, 2}` on
battery at level in `[20, 50)`, and `{30, 50, 1}` on battery below
level 20. -/
theorem C4_compute_limits (on_battery : Bool) (lvl : ℚ) :
    (on_battery = false → get_compute_limits on_battery lvl = ⟨90, 90, 5⟩) ∧
    (on_battery = true → 50 ≤ lvl →
      get_compute_limits on_battery lvl = ⟨70, 80, 3⟩) ∧
    (on_battery = true → 20 ≤ lvl → lvl < 50 →
      get_compute_limits on_battery lvl = ⟨50, 70, 2⟩) ∧
    (on_battery = true → lvl < 20 →
      get_compute_limits on_battery lvl = ⟨30, 50, 1⟩) := by
  refine ⟨fun h => ?_, fun h h50 => ?_, fun h h20 h50 => ?_, fun h h20 => ?_⟩ <;>
    subst h <;> unfold get_compute_limits <;> split_ifs <;>
    first | rfl | linarith | simp_all

/-- C4 witness: the four rows of the compute-limits table at concrete
battery states. -/
theorem C4_compute_limits_witness :
    get_compute_limits false 100 = ⟨90, 90, 5⟩ ∧
    get_compute_limits true 60 = ⟨70, 80, 3⟩ ∧
    get_compute_limits true 30 = ⟨50, 70, 2⟩ ∧
    get_compute_limits true 15 = ⟨30, 50, 1⟩ :=
  ⟨(C4_compute_limits false 100).1 rfl,
   (C4_compute_limits true 60).2.1 rfl (by decide),
   (C4_compute_limits true 30).2.2.1 rfl (by decide) (by decide),
   (C4_compute_limits true 15).2.2.2 rfl (by decide)⟩

/-- C5: The readiness score computed by `get_ai_compute_readiness` is
monotone non-decreasing when, all other inputs held fixed, the idle
duration increases, the battery level increases while on battery, the
CPU usage decreases, or the memory usage decreases. -/
theorem C5_score_monotone :
    (∀ (is_idle : Bool) (d d' : ℚ) (ob : Bool) (lvl c m : ℚ) (g : Bool),
      d ≤ d' →
      (get_ai_compute_readiness is_idle d ob lvl c m g).readiness_score ≤
        (get_ai_compute_readiness is_idle d' ob lvl c m g).readiness_score) ∧
    (∀ (is_idle : Bool) (d lvl lvl' c m : ℚ) (g : Bool), lvl ≤ lvl' →
      (get_ai_compute_readiness is_idle d true lvl c m g).readiness_score ≤
        (get_ai_compute_readiness is_idle d true lvl' c m g).readiness_score) ∧
    (∀ (is_idle : Bool) (d : ℚ) (ob : Bool) (lvl c c' m : ℚ) (g : Bool),
      c' ≤ c →
      (get_ai_compute_readiness is_idle d ob lvl c m g).readiness_score ≤
        (get_ai_compute_readiness is_idle d ob lvl c' m g).readiness_score) ∧
    (∀ (is_idle : Bool) (d : ℚ) (ob : Bool) (lvl c m m' : ℚ) (g : Bool),
      m' ≤ m →
      (get_ai_compute_readiness is_idle d ob lvl c m g).readiness_score ≤
        (get_ai_compute_readiness is_idle d ob lvl c m' g).readiness_score) := by
  refine ⟨fun i d d' ob lvl c m g h => ?_, fun i d lvl lvl' c m g h => ?_,
    fun i d ob lvl c c' m g h => ?_, fun i d ob lvl c m m' g h => ?_⟩ <;>
      rw [get_ai_compute_readiness_score, get_ai_compute_readiness_score] <;>
      unfold readiness_score
  · have := idle_points_mono i d d' h
    omega
  · have := power_points_mono lvl lvl' h
    omega
  · have := resource_points_mono c c' m m h (le_refl m)
    omega
  · have := resource_points_mono c c m m' (le_refl c) h
    omega

/-! ## Helper lemmas about the scheduler's stable sort -/

theorem find?_orderedInsert (x : SchedNode) (s : List SchedNode)
    (hs : List.Sorted score_ge s) (p : SchedNode → Bool) :
    (List.orderedInsert score_ge x s).find? p =
      match s.find? p with
      | none => if p x then some x else none
      | some z =>
          if x.readiness_score < z.readiness_score then some z
          else if p x then some x else some z := by
  induction s with
  | nil =>
      cases hpx : p x <;> simp [List.orderedInsert, List.find?, hpx]
  | cons y s' ih =>
      by_cases hxy : score_ge x y
      · rw [List.orderedInsert_of_le score_ge _ hxy]
        cases hz : (y :: s').find? p with
        | none =>
            cases hpx : p x <;>
              simp [List.find?_cons_of_pos, List.find?_cons_of_neg, hpx, hz]
        | some z =>
            have hzmem : z ∈ y :: s' := List.mem_of_find?_eq_some hz
            have hzy : score_ge y z := by
              rcases List.mem_cons.mp hzmem with h | h
              · exact h ▸ le_refl _
              · exact List.rel_of_sorted_cons hs z h
            have hnlt : ¬x.readiness_score < z.readiness_score :=
              not_lt.mpr (le_trans hzy hxy)
            cases hpx : p x <;>
              simp [List.find?_cons_of_pos, List.find?_cons_of_neg, hpx, hz,
                hnlt]
      · have hlt : x.readiness_score < y.readiness_score :=
          not_le.mp fun h => hxy h
        rw [show List.orderedInsert score_ge x (y :: s') =
            y :: List.orderedInsert score_ge x s' from if_neg hxy]
        cases hpy : p y with
        | true =>
            rw [List.find?_cons_of_pos _ hpy, List.find?_cons_of_pos _ hpy]
            simp [hlt]
        | false =>
            rw [List.find?_cons_of_neg _ (by simp [hpy]),
              List.find?_cons_of_neg _ (by simp [hpy])]
            exact ih hs.of_cons

theorem find?_insertionSort_eq_first_argmax (l : List SchedNode)
    (p : SchedNode → Bool) :
    (List.insertionSort score_ge l).find? p =
      first_argmax_score (l.filter p) := by
  induction l with
  | nil => rfl
  | cons x l' ih =>
      have hsorted := List.sorted_insertionSort score_ge l'
      rw [show List.insertionSort score_ge (x :: l') =
          List.orderedInsert score_ge x (List.insertionSort score_ge l')
          from rfl]
      rw [find?_orderedInsert x _ hsorted p, ih]
      cases hpx : p x with
      | true =>
          rw [List.filter_cons_of_pos hpx]
          cases hfa : first_argmax_score (l'.filter p) with
          | none => simp [first_argmax_score, hfa]
          | some b =>
              by_cases hlt : x.readiness_score < b.readiness_score <;>
                simp [first_argmax_score, hfa, hlt]
      | false =>
          rw [List.filter_cons_of_neg (by simp [hpx])]
          cases hfa : first_argmax_score (l'.filter p) with
          | none => simp
          | some b =>
              by_cases hlt : x.readiness_score < b.readiness_score <;>
                simp [hlt]

theorem head?_insertionSort_eq_first_argmax (l : List SchedNode) :
    (List.insertionSort score_ge l).head? = first_argmax_score l := by
  have hfind : ∀ s : List SchedNode, s.head? = s.find? (fun _ => true) := by
    intro s
    cases s <;> simp [List.find?]
  rw [hfind, find?_insertionSort_eq_first_argmax, List.filter_true]

/-- C5 witness: concrete instances of the four monotonicity directions. -/
theorem C5_score_monotone_witness :
    ((get_ai_compute_readiness true 700 false 100 10 30 false).readiness_score ≤
      (get_ai_compute_readiness true 1900 false 100 10 30 false).readiness_score) ∧
    ((get_ai_compute_readiness false 0 true 30 10 30 false).readiness_score ≤
      (get_ai_compute_readiness false 0 true 90 10 30 false).readiness_score) ∧
    ((get_ai_compute_readiness false 0 false 100 60 30 false).readiness_score ≤
      (get_ai_compute_readiness false 0 false 100 10 30 false).readiness_score) ∧
    ((get_ai_compute_readiness false 0 false 100 10 80 false).readiness_score ≤
      (get_ai_compute_readiness false 0 false 100 10 30 false).readiness_score) :=
  ⟨C5_score_monotone.1 true 700 1900 false 100 10 30 false (by decide),
   C5_score_monotone.2.1 false 0 30 90 10 30 false (by decide),
   C5_score_monotone.2.2.1 false 0 false 100 60 10 30 false (by decide),
   C5_score_monotone.2.2.2 false 0 false 100 10 80 30 false (by decide)⟩

/-! ## Claim theorems: scheduler node selection -/

/-- C2 counterexample: with two candidates of equal readiness score where
the later-listed one has the smaller current load, the code keeps the
earlier-listed node (Python's sort is stable and uses only the score),
while the claimed ordering (ties broken by ascending current load, then
id) would pick the other node. -/
theorem C2_counterexample :
    select_optimal_ai_node "general"
        [⟨"b", 70, false, 5, 3⟩, ⟨"a", 70, false, 5, 0⟩] =
      some ⟨"b", 70, false, 5, 3⟩ ∧
    select_optimal_claimed "general"
        [⟨"b", 70, false, 5, 3⟩, ⟨"a", 70, false, 5, 0⟩] =
      some ⟨"a", 70, false, 5, 0⟩ ∧
    (⟨"b", 70, false, 5, 3⟩ : SchedNode) ≠ ⟨"a", 70, false, 5, 0⟩ := by
  refine ⟨?_, ?_, ?_⟩ <;> decide

/-- C2 (amended): `_select_optimal_ai_node` returns the earliest-listed
candidate with maximal readiness score among those meeting all the task
requirements (score at least 60; GPU present for gpu_inference/training
tasks; current load below the concurrency cap); if no candidate meets
them, the earliest-listed candidate with maximal score overall; and
reports no suitable node exactly on an empty candidate set.  Ties in
readiness score are broken by the candidates' original order, not by
current load or id. -/
theorem C2_select_optimal_characterization (task_type : String)
    (nodes : List SchedNode) :
    select_optimal_ai_node task_type nodes =
      select_optimal_spec task_type nodes := by
  unfold select_optimal_ai_node select_optimal_spec
  dsimp only
  rw [find?_insertionSort_eq_first_argmax,
    head?_insertionSort_eq_first_argmax]

/-! ## Claim theorems: task-queue drain ordering -/

/-- C8 counterexample: with two pending tasks of priorities 1 and 2, the
drain tick visits the priority-1 task first (the code sorts the key
tuple ascending), while the claim's priority-descending order would
visit the priority-2 task first. -/
theorem C8_counterexample :
    process_task_queue_order
        [⟨"t2", 2, "2024-01-02"⟩, ⟨"t1", 1, "2024-01-01"⟩] =
      [⟨"t1", 1, "2024-01-01"⟩, ⟨"t2", 2, "2024-01-02"⟩] ∧
    claimed_task_queue_order
        [⟨"t2", 2, "2024-01-02"⟩, ⟨"t1", 1, "2024-01-01"⟩] =
      [⟨"t2", 2, "2024-01-02"⟩, ⟨"t1", 1, "2024-01-01"⟩] ∧
    ([⟨"t1", 1, "2024-01-01"⟩, ⟨"t2", 2, "2024-01-02"⟩] :
        List TaskRec) ≠
      [⟨"t2", 2, "2024-01-02"⟩, ⟨"t1", 1, "2024-01-01"⟩] := by
  refine ⟨?_, ?_, ?_⟩ <;> decide

/-- C8 (amended): on each drain tick, the task-queue driver schedules
the pending tasks in ascending order of priority (lower integer first),
with ties broken by `created_at` ascending: the visit order is a
permutation of the pending tasks sorted by that key. -/
theorem C8_task_queue_order (l : List TaskRec) :
    List.Sorted task_key_le (process_task_queue_order l) ∧
    List.Perm (process_task_queue_order l) l :=
  ⟨List.sorted_insertionSort task_key_le l,
   List.perm_insertionSort task_key_le l⟩

/-! ## Claim theorems: scheduler rejection handling -/

/-- C6 counterexample: at a concrete hub state (load 1, cache entry
present), a `rejected` answer leaves the load at 1 and the cache entry
in place, so the claimed conjunction (revert to pending, decrement load,
evict cache entry, report failure) fails. -/
theorem C6_counterexample :
    ¬ ((assign_task_to_node ⟨.pending, 1, true⟩ .rejected).1.task_status =
          .pending ∧
       (assign_task_to_node ⟨.pending, 1, true⟩ .rejected).1.current_load = 0 ∧
       (assign_task_to_node ⟨.pending, 1, true⟩
          .rejected).1.cache_has_node = false ∧
       (assign_task_to_node ⟨.pending, 1, true⟩ .rejected).2 = false) := by
  decide

/-- C6 (amended): whenever the agent answers a dispatched execute
request with status `rejected`, the scheduler reverts the task's status
to pending and the schedule attempt reports failure; the chosen node's
`current_load` and its readiness-cache entry are left unchanged. -/
theorem C6_rejected_reverts_to_pending (s : HubDispatchState) :
    (assign_task_to_node s .rejected).1.task_status = .pending ∧
    (assign_task_to_node s .rejected).1.current_load = s.current_load ∧
    (assign_task_to_node s .rejected).1.cache_has_node = s.cache_has_node ∧
    (assign_task_to_node s .rejected).2 = false := by
  simp [assign_task_to_node, send_task_to_node, update_task_status]

/-! ## Claim theorems: agent execute endpoint -/

/-- C7 counterexample: at a concrete probe state that is not ready (not
idle, on battery at 15 percent, CPU and memory at 90 percent), the
execute endpoint's `rejected` response does not carry the compute caps:
its `compute_limits_used` key is absent, contradicting the claim that
the rejection carries score, recommendations and caps. -/
theorem C7_counterexample :
    (get_ai_compute_readiness false 0 true 15 90 90 false).ready_for_ai =
      false ∧
    (execute_task false 0 true 15 90 90 false (.success "ok") 1).1.status =
      "rejected" ∧
    ¬ ((execute_task false 0 true 15 90 90 false
          (.success "ok") 1).1.compute_limits_used =
        some (get_ai_compute_readiness false 0 true 15 90 90
            false).compute_limits) := by
  refine ⟨?_, ?_, ?_⟩ <;> decide

/-- C7 (amended): for every execute request received while the
re-evaluated readiness has `ready_for_ai` false, the agent responds
with status `rejected` carrying the readiness score and the
recommendations (but not the compute caps, whose key is absent from the
rejection response), and does not invoke the inference engine. -/
theorem C7_rejects_when_not_ready (is_idle : Bool) (idle_duration : ℚ)
    (on_battery : Bool) (battery_level cpu_usage memory_usage : ℚ)
    (gpu_available : Bool) (engine : EngineOutcome) (dur : ℚ)
    (h : (get_ai_compute_readiness is_idle idle_duration on_battery
        battery_level cpu_usage memory_usage gpu_available).ready_for_ai =
      false) :
    (execute_task is_idle idle_duration on_battery battery_level cpu_usage
        memory_usage gpu_available engine dur).1.status = "rejected" ∧
    (execute_task is_idle idle_duration on_battery battery_level cpu_usage
        memory_usage gpu_available engine dur).1.readiness_score =
      some (get_ai_compute_readiness is_idle idle_duration on_battery
          battery_level cpu_usage memory_usage
          gpu_available).readiness_score ∧
    (execute_task is_idle idle_duration on_battery battery_level cpu_usage
        memory_usage gpu_available engine dur).1.recommendations =
      some (get_ai_compute_readiness is_idle idle_duration on_battery
          battery_level cpu_usage memory_usage
          gpu_available).recommendations ∧
    (execute_task is_idle idle_duration on_battery battery_level cpu_usage
        memory_usage gpu_available engine dur).1.compute_limits_used =
      none ∧
    (execute_task is_idle idle_duration on_battery battery_level cpu_usage
        memory_usage gpu_available engine dur).2 = false := by
  unfold execute_task
  dsimp only
  rw [if_pos h]
  exact ⟨rfl, rfl, rfl, rfl, rfl⟩

/-- C7 witness: the amended rejection contract at a concrete not-ready
probe state. -/
theorem C7_rejects_when_not_ready_witness :
    (execute_task false 0 true 15 90 90 false (.failure "e") 2).1.status =
      "rejected" ∧
    (execute_task false 0 true 15 90 90 false
        (.failure "e") 2).1.readiness_score =
      some (get_ai_compute_readiness false 0 true 15 90 90
          false).readiness_score ∧
    (execute_task false 0 true 15 90 90 false
        (.failure "e") 2).1.recommendations =
      some (get_ai_compute_readiness false 0 true 15 90 90
          false).recommendations ∧
    (execute_task false 0 true 15 90 90 false
        (.failure "e") 2).1.compute_limits_used = none ∧
    (execute_task false 0 true 15 90 90 false (.failure "e") 2).2 = false :=
  C7_rejects_when_not_ready false 0 true 15 90 90 false (.failure "e") 2
    (by decide)

/-! ## Helper lemmas: idle-detector step cases -/

theorem detect_step_active (st : MonitorState) (now : ℤ) (cpu mem : ℚ) :
    (detect_idle_state st now true cpu mem).1 = ⟨now, none, false⟩ := by
  simp [detect_idle_state]

theorem detect_step_high_load (st : MonitorState) (now : ℤ) (cpu mem : ℚ)
    (h : ¬(cpu < 10 ∧ mem < 70)) :
    (detect_idle_state st now false cpu mem).1 =
      { st with idle_start_time := none, currently_idle := false } := by
  simp [detect_idle_state, h]

theorem detect_step_start (st : MonitorState) (now : ℤ) (cpu mem : ℚ)
    (hll : cpu < 10 ∧ mem < 70) (hci : st.currently_idle = false)
    (hist : st.idle_start_time = none) :
    (detect_idle_state st now false cpu mem).1 =
      { st with idle_start_time := some now } := by
  simp [detect_idle_state, hll, hci, hist]

theorem detect_step_promote (st : MonitorState) (now : ℤ) (cpu mem : ℚ)
    (t0 : ℤ) (hll : cpu < 10 ∧ mem < 70) (hci : st.currently_idle = false)
    (hist : st.idle_start_time = some t0) (hdt : 300 < now - t0) :
    (detect_idle_state st now false cpu mem).1 =
      { st with currently_idle := true } := by
  simp [detect_idle_state, hll, hci, hist, hdt]

theorem detect_step_wait (st : MonitorState) (now : ℤ) (cpu mem : ℚ)
    (t0 : ℤ) (hll : cpu < 10 ∧ mem < 70) (hci : st.currently_idle = false)
    (hist : st.idle_start_time = some t0) (hdt : ¬300 < now - t0) :
    (detect_idle_state st now false cpu mem).1 = st := by
  simp [detect_idle_state, hll, hci, hist, hdt]

theorem detect_step_already_idle (st : MonitorState) (now : ℤ)
    (cpu mem : ℚ) (hll : cpu < 10 ∧ mem < 70)
    (hci : st.currently_idle = true) :
    (detect_idle_state st now false cpu mem).1 = st := by
  simp [detect_idle_state, hll, hci]

/-! ## Claim theorems: idle detector -/

/-- C9: Across successive calls to the idle detector: user activity
forces `currently_idle` false and clears the idle-session start; the
idle start is set (to the current time) only when the user is inactive
and the system is under low load; it is cleared when load rises above
the threshold; `currently_idle` becomes true only once the elapsed idle
duration reaches 300 seconds; and a run in which every sample reports
the user active keeps `currently_idle` false throughout. -/
theorem C9_idle_detector_invariants :
    (∀ (st : MonitorState) (now : ℤ) (cpu mem : ℚ),
      (detect_idle_state st now true cpu mem).1.currently_idle = false ∧
      (detect_idle_state st now true cpu mem).1.idle_start_time = none) ∧
    (∀ (st : MonitorState) (now : ℤ) (ua : Bool) (cpu mem : ℚ) (t : ℤ),
      (detect_idle_state st now ua cpu mem).1.idle_start_time = some t →
      st.idle_start_time = some t ∨
        (ua = false ∧ cpu < 10 ∧ mem < 70 ∧ t = now)) ∧
    (∀ (st : MonitorState) (now : ℤ) (cpu mem : ℚ),
      ¬(cpu < 10 ∧ mem < 70) →
      (detect_idle_state st now false cpu mem).1.idle_start_time = none ∧
      (detect_idle_state st now false cpu mem).1.currently_idle = false) ∧
    (∀ (st : MonitorState) (now : ℤ) (ua : Bool) (cpu mem : ℚ),
      st.currently_idle = false →
      (detect_idle_state st now ua cpu mem).1.currently_idle = true →
      ∃ t0, st.idle_start_time = some t0 ∧ 300 ≤ now - t0) ∧
    (∀ (st : MonitorState) (samples : List (ℤ × Bool × ℚ × ℚ)),
      st.currently_idle = false →
      (∀ s ∈ samples, s.2.1 = true) →
      (run_detect_idle st samples).currently_idle = false) := by
  refine ⟨?_, ?_, ?_, ?_, ?_⟩
  · intro st now cpu mem
    rw [detect_step_active]
    exact ⟨rfl, rfl⟩
  · intro st now ua cpu mem t h
    cases ua with
    | true =>
        rw [detect_step_active] at h
        exact absurd h (by simp)
    | false =>
        by_cases hll : cpu < 10 ∧ mem < 70
        · cases hci : st.currently_idle with
          | true =>
              rw [detect_step_already_idle st now cpu mem hll hci] at h
              exact Or.inl h
          | false =>
              cases hist : st.idle_start_time with
              | none =>
                  rw [detect_step_start st now cpu mem hll hci hist] at h
                  refine Or.inr ⟨rfl, hll.1, hll.2, ?_⟩
                  simpa using h.symm
              | some t0 =>
                  by_cases hdt : 300 < now - t0
                  · rw [detect_step_promote st now cpu mem t0 hll hci hist
                      hdt] at h
                    dsimp only at h
                    rw [hist] at h
                    exact Or.inl h
                  · rw [detect_step_wait st now cpu mem t0 hll hci hist
                      hdt] at h
                    rw [hist] at h
                    exact Or.inl h
        · rw [detect_step_high_load st now cpu mem hll] at h
          exact absurd h (by simp)
  · intro st now cpu mem hll
    rw [detect_step_high_load st now cpu mem hll]
    exact ⟨rfl, rfl⟩
  · intro st now ua cpu mem hci h
    cases ua with
    | true =>
        rw [detect_step_active] at h
        exact absurd h (by simp)
    | false =>
        by_cases hll : cpu < 10 ∧ mem < 70
        · cases hist : st.idle_start_time with
          | none =>
              rw [detect_step_start st now cpu mem hll hci hist] at h
              rw [show ({ st with idle_start_time := some now } :
                  MonitorState).currently_idle = st.currently_idle from rfl,
                hci] at h
              exact absurd h (by simp)
          | some t0 =>
              by_cases hdt : 300 < now - t0
              · exact ⟨t0, rfl, le_of_lt hdt⟩
              · rw [detect_step_wait st now cpu mem t0 hll hci hist hdt,
                  hci] at h
                exact absurd h (by simp)
        · rw [detect_step_high_load st now cpu mem hll] at h
          exact absurd h (by simp)
  · intro st samples
    induction samples generalizing st with
    | nil => intro hci _; exact hci
    | cons s rest ih =>
        intro hci hall
        obtain ⟨now, ua, cpu, mem⟩ := s
        have hua : ua = true := hall _ (List.mem_cons_self _ _)
        subst hua
        show (run_detect_idle (detect_idle_state st now true cpu mem).1
            rest).currently_idle = false
        exact ih _ (by rw [detect_step_active]) fun s hs =>
          hall s (List.mem_cons_of_mem _ hs)

/-- C9 witness: the idle-detector invariants at concrete states: an
active sample resets the session; a promotion step at 301 seconds of
accumulated idleness; and a two-sample all-active run stays
non-idle. -/
theorem C9_idle_detector_invariants_witness :
    ((detect_idle_state ⟨0, some 5, true⟩ 10 true 50 50).1.currently_idle =
        false ∧
      (detect_idle_state ⟨0, some 5, true⟩ 10 true 50
          50).1.idle_start_time = none) ∧
    (∃ t0, (⟨0, some 0, false⟩ : MonitorState).idle_start_time = some t0 ∧
      300 ≤ 301 - t0) ∧
    (run_detect_idle ⟨0, none, false⟩
        [(25, true, 5, 30), (50, true, 5, 30)]).currently_idle = false := by
  refine ⟨C9_idle_detector_invariants.1 ⟨0, some 5, true⟩ 10 50 50, ?_, ?_⟩
  · exact C9_idle_detector_invariants.2.2.2.1 ⟨0, some 0, false⟩ 301 false
      5 30 rfl (by decide)
  · exact C9_idle_detector_invariants.2.2.2.2 ⟨0, none, false⟩
      [(25, true, 5, 30), (50, true, 5, 30)] rfl (by decide)

/-! ## Helper lemmas: heartbeat failure runs -/

theorem starts_with_failures_mono :
    ∀ (j k : Nat) (l : List Bool), j ≤ k → starts_with_failures k l →
      starts_with_failures j l := by
  intro j
  induction j with
  | zero => intro k l _ _; trivial
  | succ j ih =>
      intro k l hjk hk
      cases k with
      | zero => omega
      | succ k' =>
          cases l with
          | nil => exact absurd hk (by simp [starts_with_failures])
          | cons b l' =>
              obtain ⟨hb, htail⟩ := hk
              exact ⟨hb, ih k' l' (by omega) htail⟩

theorem starts_with_failures_imp_run (k : Nat) (l : List Bool)
    (h : starts_with_failures k l) : has_failure_run k l := by
  cases l with
  | nil => exact h
  | cons b l' => exact Or.inl h

theorem run_main_loop_rereg_iff (l : List Bool) :
    ∀ c : Nat, c ≤ 4 →
      (1 ≤ (run_main_loop c l).2 ↔
        starts_with_failures (5 - c) l ∨ has_failure_run 5 l) := by
  induction l with
  | nil =>
      intro c hc
      obtain ⟨k, hk⟩ : ∃ k, 5 - c = k + 1 := ⟨4 - c, by omega⟩
      simp [run_main_loop, hk, starts_with_failures, has_failure_run]
  | cons b rest ih =>
      intro c hc
      cases b with
      | true =>
          have hstep : main_loop_step c true true = (0, false) := rfl
          have hrun : (run_main_loop c (true :: rest)).2 =
              (run_main_loop 0 rest).2 := by
            simp [run_main_loop, hstep]
          rw [hrun]
          obtain ⟨k, hk⟩ : ∃ k, 5 - c = k + 1 := ⟨4 - c, by omega⟩
          have hsw : ¬ starts_with_failures (5 - c) (true :: rest) := by
            rw [hk]
            rintro ⟨hb, -⟩
            exact absurd hb (by simp)
          have hsw5 : ¬ starts_with_failures 5 (true :: rest) := by
            rintro ⟨hb, -⟩
            exact absurd hb (by simp)
          rw [ih 0 (by omega)]
          constructor
          · rintro (h5 | hrun5)
            · exact Or.inr (Or.inr (starts_with_failures_imp_run 5 rest h5))
            · exact Or.inr (Or.inr hrun5)
          · rintro (h | h | h)
            · exact absurd h hsw
            · exact absurd h hsw5
            · exact Or.inr h
      | false =>
          by_cases hc4 : c = 4
          · subst hc4
            have hstep : main_loop_step 4 false true = (0, true) := rfl
            have hrun : 1 ≤ (run_main_loop 4 (false :: rest)).2 := by
              simp [run_main_loop, hstep]
            have hsw : starts_with_failures (5 - 4) (false :: rest) :=
              ⟨rfl, trivial⟩
            exact iff_of_true hrun (Or.inl hsw)
          · have hlt : ¬ 5 ≤ c + 1 := by omega
            have hstep : main_loop_step c false true = (c + 1, false) := by
              simp [main_loop_step, hlt]
            have hrun : (run_main_loop c (false :: rest)).2 =
                (run_main_loop (c + 1) rest).2 := by
              simp [run_main_loop, hstep]
            rw [hrun, ih (c + 1) (by omega)]
            obtain ⟨k, hk, hk4⟩ : ∃ k, 5 - c = k + 1 ∧ k = 4 - c :=
              ⟨4 - c, by omega, rfl⟩
            have h5c : 5 - (c + 1) = 4 - c := by omega
            rw [h5c]
            constructor
            · rintro (h | h)
              · refine Or.inl ?_
                rw [hk, hk4]
                exact ⟨rfl, h⟩
              · exact Or.inr (Or.inr h)
            · rintro (h | h | h)
              · rw [hk] at h
                obtain ⟨-, htail⟩ := h
                rw [hk4] at htail
                exact Or.inl htail
              · obtain ⟨-, htail⟩ := h
                exact Or.inl (starts_with_failures_mono (4 - c) 4 rest
                  (by omega) htail)
              · exact Or.inr h

/-! ## Claim theorems: agent main loop re-registration -/

/-- C10: In the agent main loop, when the consecutive heartbeat-failure
counter reaches 5, exactly one re-registration attempt is made and the
counter resets to 0 regardless of the re-registration outcome (whose
result the loop never consults, so a mid-life registration failure
never terminates the loop); and over any run started at counter 0, a
re-registration occurs exactly when 5 consecutive heartbeat failures
occur somewhere in the run. -/
theorem C10_reregistration_policy :
    (∀ reg_ok : Bool, main_loop_step 4 false reg_ok = (0, true)) ∧
    (∀ (c : Nat) (hb r r' : Bool),
      main_loop_step c hb r = main_loop_step c hb r') ∧
    (∀ (c : Nat) (r : Bool), 5 ≤ c + 1 →
      main_loop_step c false r = (0, true)) ∧
    (∀ l : List Bool,
      1 ≤ (run_main_loop 0 l).2 ↔ has_failure_run 5 l) := by
  refine ⟨fun r => rfl, fun c hb r r' => rfl, fun c r h => ?_, fun l => ?_⟩
  · simp [main_loop_step, h]
  · rw [run_main_loop_rereg_iff l 0 (by omega)]
    constructor
    · rintro (h | h)
      · exact starts_with_failures_imp_run 5 l h
      · exact h
    · exact fun h => Or.inr h

/-- C10 witness: the re-registration policy at concrete inputs: the
trigger step at counter 4, outcome-independence at counter 2, the
general trigger with its hypothesis discharged, and the run
characterization on a five-failure run. -/
theorem C10_reregistration_policy_witness :
    main_loop_step 4 false false = (0, true) ∧
    main_loop_step 2 false true = main_loop_step 2 false false ∧
    main_loop_step 4 false true = (0, true) ∧
    (1 ≤ (run_main_loop 0 [false, false, false, false, false]).2 ↔
      has_failure_run 5 [false, false, false, false, false]) :=
  ⟨C10_reregistration_policy.1 false,
   C10_reregistration_policy.2.1 2 false true false,
   C10_reregistration_policy.2.2.1 4 true (by decide),
   C10_reregistration_policy.2.2.2 [false, false, false, false, false]⟩

end ExoStack
